import Mathlib

/-!
Verification development for the RC submarine controller core
(safety monitor, emergency procedure, vehicle state machine,
PID controller, ballast state machine, event log).

Each definition is a shallow embedding of one C function of the source
tree, translated statement by statement:
  - C float arithmetic is modelled over the rationals;
  - C signed integers are modelled as unbounded Int (every value range
    the code can produce is checked to fit the C type, so no wrap occurs);
  - C unsigned 32-bit subtraction is modelled by an explicit wrapping
    subtraction u32_sub;
  - C truncating integer division is Int.tdiv;
  - the fixed C array of the event log is modelled as a function from
    index to entry, written only below EVENT_LOG_SIZE;
  - the globals of safety_monitor.c form the SafetyState structure, the
    per-tick values read from sensors and from core 1 form SafetyInputs,
    and observable actions of one tick (watchdog feed, invocations of
    trigger_emergency_blow) are returned in SafetyOutputs.
-/

namespace Triton

/-! Build-time constants, from config.h as quoted in the hardware
reference, and local constants of the individual C files. -/

def SIGNAL_TIMEOUT_MS : Nat := 3000
def MAX_DEPTH_CM : Int := 300
def MAX_PITCH_DEG : Int := 45
def MIN_BATTERY_MV : Nat := 6400
def CORE1_STALL_THRESHOLD : Nat := 10
def EVENT_LOG_SIZE : Nat := 32
def SURFACE_DEPTH_CM : Int := 10
def DIVE_COMPLETE_CM : Int := 50
def BALLAST_FILL_TIME_MS : Nat := 10000
def BALLAST_LEVEL_TOLERANCE : Int := 5
def BALLAST_FULL_RANGE_UNITS : Nat := 200
def BALLAST_SCALE_X1000 : Nat := 1000
def INT32_MAX : Int := 2147483647
def U32_MOD : Nat := 4294967296

/-- Wrapping uint32 subtraction a - b (for a, b < 2^32). -/
def u32_sub (a b : Nat) : Nat :=
  if b ≤ a then a - b else a + U32_MOD - b

/-- The ABS macro of types.h: (x) < 0 ? -(x) : (x). -/
def c_abs (x : Int) : Int := if x < 0 then -x else x

/-! PID controller, from pid.c / pid.h. Floats are modelled over ℚ. -/

structure PidController where
  kp : ℚ
  ki : ℚ
  kd : ℚ
  integral : ℚ
  prev_error : ℚ
  prev_measurement : ℚ
  integral_limit : ℚ
  output_min : ℚ
  output_max : ℚ
  use_derivative_on_measurement : Bool
deriving DecidableEq

/-- pid_init from pid.c. -/
def pid_init (kp ki kd : ℚ) : PidController where
  kp := kp
  ki := ki
  kd := kd
  integral := 0
  prev_error := 0
  prev_measurement := 0
  integral_limit := 1000
  output_min := -100
  output_max := 100
  use_derivative_on_measurement := true

/-- pid_set_limits from pid.c: rejected entirely when out_min >= out_max. -/
def pid_set_limits (pid : PidController) (out_min out_max int_limit : ℚ) :
    PidController :=
  if out_min ≥ out_max then pid
  else { pid with
          output_min := out_min
          output_max := out_max
          integral_limit := int_limit }

/-- pid_update from pid.c; returns the updated controller and the output.
A call with dt ≤ 0 changes nothing and returns 0 (the guarded early
return of the C code). -/
def pid_update (pid : PidController) (setpoint measurement dt : ℚ) :
    PidController × ℚ :=
  if dt ≤ 0 then (pid, 0)
  else
    let error := setpoint - measurement
    let p_term := pid.kp * error
    let integral_raw := pid.integral + error * dt
    let integral :=
      if integral_raw > pid.integral_limit then pid.integral_limit
      else if integral_raw < -pid.integral_limit then -pid.integral_limit
      else integral_raw
    let i_term := pid.ki * integral
    let d_term :=
      if pid.use_derivative_on_measurement then
        -pid.kd * ((measurement - pid.prev_measurement) / dt)
      else
        pid.kd * ((error - pid.prev_error) / dt)
    let output_raw := p_term + i_term + d_term
    let output :=
      if output_raw > pid.output_max then pid.output_max
      else if output_raw < pid.output_min then pid.output_min
      else output_raw
    ({ pid with
        integral := integral
        prev_error := error
        prev_measurement := measurement },
     output)

/-- pid_reset from pid.c: zeroes the integral and both previous-value
trackers only. -/
def pid_reset (pid : PidController) : PidController :=
  { pid with integral := 0, prev_error := 0, prev_measurement := 0 }

/-! Vehicle state machine, from state_machine.c / state_machine.h. -/

inductive MainState
  | INIT
  | SURFACE
  | DIVING
  | SUBMERGED_MANUAL
  | SUBMERGED_DEPTH_HOLD
  | SURFACING
  | EMERGENCY
deriving DecidableEq

inductive Command
  | NONE
  | DIVE
  | SURFACE
  | DEPTH_HOLD
  | MANUAL
  | EMERGENCY
deriving DecidableEq

structure StateMachine where
  state : MainState
  target_depth_cm : Int
  state_start_ms : Nat
  ballast_target_level : Int
  depth_hold_enabled : Bool
deriving DecidableEq

/-- state_machine_set_outputs from state_machine.c. -/
def state_machine_set_outputs (sm : StateMachine) (ballast_level : Int)
    (depth_hold : Bool) : StateMachine :=
  { sm with ballast_target_level := ballast_level
            depth_hold_enabled := depth_hold }

/-- state_machine_init from state_machine.c. -/
def state_machine_init : StateMachine :=
  state_machine_set_outputs
    { state := MainState.INIT
      target_depth_cm := 0
      state_start_ms := 0
      ballast_target_level := 0
      depth_hold_enabled := false } (-100) false

/-- state_machine_set_target_depth from state_machine.c: an out-of-range
request is silently ignored and the previous target kept. -/
def state_machine_set_target_depth (sm : StateMachine) (depth_cm : Int) :
    StateMachine :=
  if depth_cm < 0 ∨ depth_cm > MAX_DEPTH_CM then sm
  else { sm with target_depth_cm := depth_cm }

/-- state_machine_trigger_emergency from state_machine.c. -/
def state_machine_trigger_emergency (sm : StateMachine) : StateMachine :=
  state_machine_set_outputs { sm with state := MainState.EMERGENCY } (-100) false

/-- state_machine_handle_init from state_machine.c. -/
def state_machine_handle_init (sm : StateMachine) (now_ms : Nat) : StateMachine :=
  state_machine_set_outputs
    { sm with state := MainState.SURFACE, state_start_ms := now_ms } (-100) false

/-- state_machine_handle_surface from state_machine.c. -/
def state_machine_handle_surface (sm : StateMachine) (cmd : Command)
    (now_ms : Nat) : StateMachine :=
  let sm := state_machine_set_outputs sm (-100) false
  if cmd = Command.DIVE ∧ sm.target_depth_cm > 0 then
    state_machine_set_outputs
      { sm with state := MainState.DIVING, state_start_ms := now_ms } 50 false
  else sm

/-- state_machine_handle_diving from state_machine.c. -/
def state_machine_handle_diving (sm : StateMachine) (cmd : Command)
    (depth_cm : Int) (now_ms : Nat) : StateMachine :=
  let sm := state_machine_set_outputs sm 50 false
  if cmd = Command.SURFACE then
    state_machine_set_outputs
      { sm with state := MainState.SURFACING, state_start_ms := now_ms } (-100) false
  else if depth_cm ≥ DIVE_COMPLETE_CM then
    state_machine_set_outputs
      { sm with state := MainState.SUBMERGED_MANUAL, state_start_ms := now_ms } 0 false
  else sm

/-- state_machine_handle_submerged_manual from state_machine.c.  Entering
depth hold stores the measured depth (through set_target_depth) and does
not update state_start_ms. -/
def state_machine_handle_submerged_manual (sm : StateMachine) (cmd : Command)
    (depth_cm : Int) (now_ms : Nat) : StateMachine :=
  let sm := state_machine_set_outputs sm 0 false
  if cmd = Command.SURFACE then
    state_machine_set_outputs
      { sm with state := MainState.SURFACING, state_start_ms := now_ms } (-100) false
  else if cmd = Command.DEPTH_HOLD then
    state_machine_set_outputs
      (state_machine_set_target_depth
        { sm with state := MainState.SUBMERGED_DEPTH_HOLD } depth_cm) 0 true
  else sm

/-- state_machine_handle_submerged_depth_hold from state_machine.c. -/
def state_machine_handle_submerged_depth_hold (sm : StateMachine) (cmd : Command)
    (now_ms : Nat) : StateMachine :=
  let sm := state_machine_set_outputs sm 0 true
  if cmd = Command.SURFACE then
    state_machine_set_outputs
      { sm with state := MainState.SURFACING, state_start_ms := now_ms } (-100) false
  else if cmd = Command.MANUAL then
    state_machine_set_outputs
      { sm with state := MainState.SUBMERGED_MANUAL, state_start_ms := now_ms } 0 false
  else sm

/-- state_machine_handle_surfacing from state_machine.c. -/
def state_machine_handle_surfacing (sm : StateMachine) (depth_cm : Int)
    (now_ms : Nat) : StateMachine :=
  let sm := state_machine_set_outputs sm (-100) false
  if depth_cm ≤ SURFACE_DEPTH_CM then
    { sm with state := MainState.SURFACE, state_start_ms := now_ms }
  else sm

/-- state_machine_process from state_machine.c: an emergency command
pre-empts everything, an emergency state ignores everything else, the
remaining states dispatch to their handlers. -/
def state_machine_process (sm : StateMachine) (cmd : Command)
    (depth_cm : Int) (now_ms : Nat) : StateMachine :=
  if cmd = Command.EMERGENCY then
    state_machine_trigger_emergency sm
  else if sm.state = MainState.EMERGENCY then
    sm
  else
    match sm.state with
    | MainState.INIT => state_machine_handle_init sm now_ms
    | MainState.SURFACE => state_machine_handle_surface sm cmd now_ms
    | MainState.DIVING => state_machine_handle_diving sm cmd depth_cm now_ms
    | MainState.SUBMERGED_MANUAL =>
        state_machine_handle_submerged_manual sm cmd depth_cm now_ms
    | MainState.SUBMERGED_DEPTH_HOLD =>
        state_machine_handle_submerged_depth_hold sm cmd now_ms
    | MainState.SURFACING => state_machine_handle_surfacing sm depth_cm now_ms
    | MainState.EMERGENCY => sm

/-! Ballast controller, from ballast_ctrl.c / ballast_ctrl.h. -/

inductive BallastState
  | IDLE
  | FILLING
  | DRAINING
  | HOLDING
deriving DecidableEq

structure BallastController where
  state : BallastState
  target_level : Int
  current_level : Int
  current_level_x1000 : Int
  last_update_ms : Nat
  fill_time_ms : Nat
deriving DecidableEq

/-- clamp_i8 from ballast_ctrl.c. -/
def clamp_i8 (v lo hi : Int) : Int :=
  if v < lo then lo else if v > hi then hi else v

/-- clamp_dt_ms from ballast_ctrl.c. -/
def clamp_dt_ms (dt_ms max_dt_ms : Nat) : Nat :=
  if dt_ms > max_dt_ms then max_dt_ms else dt_ms

/-- ballast_delta_x1000 from ballast_ctrl.c (all-unsigned arithmetic,
capped at INT32_MAX before the cast back to int32). -/
def ballast_delta_x1000 (dt_ms fill_time_ms : Nat) : Int :=
  if fill_time_ms = 0 then 0
  else
    let dt_clamped := clamp_dt_ms dt_ms fill_time_ms
    let num := dt_clamped * (BALLAST_FULL_RANGE_UNITS * BALLAST_SCALE_X1000)
    let delta_u := num / fill_time_ms
    if (delta_u : Int) > INT32_MAX then INT32_MAX else (delta_u : Int)

/-- ballast_update_level from ballast_ctrl.c.  A zero last_update_ms is
the sentinel meaning no previous sample: the call only records now_ms.
Otherwise the fixed-point level advances by direction * delta and is
clamped to [-100000, 100000], and the int8 level is its truncated
thousandth clamped to [-100, 100]. -/
def ballast_update_level (ctrl : BallastController) (direction : Int)
    (now_ms : Nat) : BallastController :=
  if ctrl.last_update_ms = 0 then { ctrl with last_update_ms := now_ms }
  else
    let dt_ms := u32_sub now_ms ctrl.last_update_ms
    let delta := ballast_delta_x1000 dt_ms ctrl.fill_time_ms
    let raw := ctrl.current_level_x1000 + direction * delta
    let min_x1000 : Int := -100 * (BALLAST_SCALE_X1000 : Int)
    let max_x1000 : Int := 100 * (BALLAST_SCALE_X1000 : Int)
    let lvl_x1000 :=
      if raw < min_x1000 then min_x1000
      else if raw > max_x1000 then max_x1000
      else raw
    { ctrl with
        last_update_ms := now_ms
        current_level_x1000 := lvl_x1000
        current_level := clamp_i8 (lvl_x1000.tdiv (BALLAST_SCALE_X1000 : Int)) (-100) 100 }

/-- ballast_ctrl_init from ballast_ctrl.c. -/
def ballast_ctrl_init : BallastController where
  state := BallastState.IDLE
  target_level := 0
  current_level := 0
  current_level_x1000 := 0
  last_update_ms := 0
  fill_time_ms := BALLAST_FILL_TIME_MS

/-- ballast_ctrl_set_target from ballast_ctrl.c. -/
def ballast_ctrl_set_target (ctrl : BallastController) (level : Int) :
    BallastController :=
  { ctrl with target_level := clamp_i8 level (-100) 100 }

/-- ballast_ctrl_update from ballast_ctrl.c.  Returns the updated
controller together with the pump speed and valve command of this tick
(the two out parameters, initialised to 0 / closed). -/
def ballast_ctrl_update (ctrl : BallastController) (now_ms : Nat) :
    BallastController × Int × Bool :=
  let error := ctrl.target_level - ctrl.current_level
  let abs_error := c_abs error
  match ctrl.state with
  | BallastState.IDLE =>
      if abs_error > BALLAST_LEVEL_TOLERANCE then
        if error > 0 then
          ({ ctrl with state := BallastState.FILLING, last_update_ms := 0 }, 100, false)
        else
          ({ ctrl with state := BallastState.DRAINING, last_update_ms := 0 }, -100, true)
      else (ctrl, 0, false)
  | BallastState.FILLING =>
      let ctrl := ballast_update_level ctrl 1 now_ms
      if ctrl.current_level ≥ ctrl.target_level then
        ({ ctrl with
            current_level := ctrl.target_level
            current_level_x1000 := ctrl.target_level * (BALLAST_SCALE_X1000 : Int)
            state := BallastState.HOLDING }, 100, false)
      else (ctrl, 100, false)
  | BallastState.DRAINING =>
      let ctrl := ballast_update_level ctrl (-1) now_ms
      if ctrl.current_level ≤ ctrl.target_level then
        ({ ctrl with
            current_level := ctrl.target_level
            current_level_x1000 := ctrl.target_level * (BALLAST_SCALE_X1000 : Int)
            state := BallastState.HOLDING }, -100, true)
      else (ctrl, -100, true)
  | BallastState.HOLDING =>
      if abs_error > BALLAST_LEVEL_TOLERANCE * 2 then
        ({ ctrl with state := BallastState.IDLE }, 0, false)
      else (ctrl, 0, false)

/-! Event log, from log.c / log.h, a fixed-capacity ring buffer.  The C
array of EVENT_LOG_SIZE entries is modelled as a function from index to
entry; it is only ever written and read at indices below EVENT_LOG_SIZE. -/

structure EventLogEntry where
  timestamp_ms : Nat
  code : Nat
  param1 : Nat
  param2 : Nat
deriving DecidableEq

/-- The all-zero entry log_init fills the buffer with (EVT_NONE = 0). -/
def log_entry_zero : EventLogEntry := ⟨0, 0, 0, 0⟩

structure EventLog where
  entries : Nat → EventLogEntry
  head : Nat
  count : Nat

/-- next_index from log.c. -/
def next_index (idx : Nat) : Nat :=
  if idx + 1 ≥ EVENT_LOG_SIZE then 0 else idx + 1

/-- wrap_sub from log.c. -/
def wrap_sub (a b : Nat) : Nat :=
  if a ≥ b then a - b else EVENT_LOG_SIZE - (b - a)

/-- log_init from log.c. -/
def log_init : EventLog where
  entries := fun _ => log_entry_zero
  head := 0
  count := 0

/-- log_event from log.c: write at head, advance head, saturate count. -/
def log_event (log : EventLog) (timestamp_ms code param1 param2 : Nat) :
    EventLog where
  entries := fun j =>
    if j = log.head then ⟨timestamp_ms, code, param1, param2⟩ else log.entries j
  head := next_index log.head
  count := if log.count < EVENT_LOG_SIZE then log.count + 1 else log.count

/-- log_get_newest from log.c: some entry for an index below the count,
none (the false return) otherwise. -/
def log_get_newest (log : EventLog) (index_from_newest : Nat) :
    Option EventLogEntry :=
  if index_from_newest ≥ log.count then none
  else
    let newest_idx := wrap_sub log.head 1
    let idx := wrap_sub newest_idx index_from_newest
    some (log.entries idx)

/-- log_count from log.c. -/
def log_count (log : EventLog) : Nat := log.count

/-! Safety monitor, from safety_monitor.c.  The file-scoped globals form
SafetyState; the values the tick reads from elsewhere (time, the shared
variables core 1 writes, the battery and leak drivers) form SafetyInputs;
the externally visible actions of the tick form SafetyOutputs. -/

structure FaultFlags where
  signal_lost : Bool
  low_battery : Bool
  leak : Bool
  depth_exceeded : Bool
  pitch_exceeded : Bool
  i2c_error : Bool
  sensor_fault : Bool
  watchdog : Bool
  core1_stall : Bool
deriving DecidableEq

/-- FaultFlags with every bit clear (g_faults.all = 0). -/
def FaultFlags.clear : FaultFlags :=
  ⟨false, false, false, false, false, false, false, false, false⟩

/-- The nonzero test g_faults.all != 0. -/
def FaultFlags.anySet (f : FaultFlags) : Bool :=
  f.signal_lost || f.low_battery || f.leak || f.depth_exceeded ||
  f.pitch_exceeded || f.i2c_error || f.sensor_fault || f.watchdog ||
  f.core1_stall

/-- The test g_faults.all & 0x011F (the five low bits and core1_stall). -/
def FaultFlags.critical (f : FaultFlags) : Bool :=
  f.signal_lost || f.low_battery || f.leak || f.depth_exceeded ||
  f.pitch_exceeded || f.core1_stall

structure SafetyState where
  faults : FaultFlags
  emergency : Bool
  last_heartbeat : Nat
  stall_count : Nat
deriving DecidableEq

/-- Per-tick inputs of safety_monitor_run: the clock, the shared
variables written by core 1 (last valid RC time, depth, pitch,
heartbeat), and the battery and leak driver readings. -/
structure SafetyInputs where
  now_ms : Nat
  last_rc_valid_ms : Nat
  batt_mv : Nat
  leak_detected : Bool
  depth_cm : Int
  pitch_x10 : Int
  core1_heartbeat : Nat
deriving DecidableEq

/-- Externally visible actions of one safety_monitor_run tick:
whether the hardware watchdog was fed, and how often
trigger_emergency_blow was invoked from the core-stall check and from
the aggregated-critical-fault check. -/
structure SafetyOutputs where
  watchdog_fed : Bool
  stall_trigger_calls : Nat
  aggregate_trigger_calls : Nat
deriving DecidableEq

/-- check_rc_signal from safety_monitor.c: set on timeout, cleared as
soon as the elapsed time is back within the limit (uint32 wrapping
subtraction). -/
def check_rc_signal (f : FaultFlags) (now_ms last_rc_valid_ms : Nat) :
    FaultFlags :=
  if u32_sub now_ms last_rc_valid_ms > SIGNAL_TIMEOUT_MS then
    { f with signal_lost := true }
  else
    { f with signal_lost := false }

/-- check_battery from safety_monitor.c: set below the threshold, never
cleared. -/
def check_battery (f : FaultFlags) (batt_mv : Nat) : FaultFlags :=
  if batt_mv < MIN_BATTERY_MV then { f with low_battery := true } else f

/-- check_sensors from safety_monitor.c: leak, depth and pitch are
set-only; the pitch limit compares whole degrees obtained by C
truncating division of the tenths-of-degree value. -/
def check_sensors (f : FaultFlags) (leak_detected : Bool) (depth_cm pitch_x10 : Int) :
    FaultFlags :=
  let f := if leak_detected then { f with leak := true } else f
  let f := if depth_cm > MAX_DEPTH_CM then { f with depth_exceeded := true } else f
  let pitch_deg := pitch_x10.tdiv 10
  if c_abs pitch_deg > MAX_PITCH_DEG then { f with pitch_exceeded := true } else f

/-- check_core1_health from safety_monitor.c: a frozen heartbeat bumps
the stall counter (uint32); past the threshold the core1_stall fault
rises and trigger_emergency_blow is invoked directly (returned count);
a resumed heartbeat clears counter and fault. -/
def check_core1_health (s : SafetyState) (core1_heartbeat : Nat) :
    SafetyState × Nat :=
  if core1_heartbeat = s.last_heartbeat then
    let stall_count := (s.stall_count + 1) % U32_MOD
    if stall_count > CORE1_STALL_THRESHOLD then
      if !s.faults.core1_stall then
        ({ s with
            faults := { s.faults with core1_stall := true }
            stall_count := stall_count
            last_heartbeat := core1_heartbeat }, 1)
      else
        ({ s with stall_count := stall_count, last_heartbeat := core1_heartbeat }, 0)
    else
      ({ s with stall_count := stall_count, last_heartbeat := core1_heartbeat }, 0)
  else
    ({ s with
        faults := { s.faults with core1_stall := false }
        stall_count := 0
        last_heartbeat := core1_heartbeat }, 0)

/-- safety_monitor_run from safety_monitor.c: (1) feed the watchdog
unconditionally, (2) run the four checks in order, (3) if a critical
fault is aggregated and the emergency latch is not yet set, invoke
trigger_emergency_blow once and set the latch.  (The heartbeat LED of
step 4 has no modelled effect.) -/
def safety_monitor_run (s : SafetyState) (inp : SafetyInputs) :
    SafetyState × SafetyOutputs :=
  let fed := true
  let f := check_rc_signal s.faults inp.now_ms inp.last_rc_valid_ms
  let f := check_battery f inp.batt_mv
  let f := check_sensors f inp.leak_detected inp.depth_cm inp.pitch_x10
  let (s, stall_calls) := check_core1_health { s with faults := f } inp.core1_heartbeat
  if s.faults.critical ∧ !s.emergency then
    ({ s with emergency := true },
     { watchdog_fed := fed, stall_trigger_calls := stall_calls, aggregate_trigger_calls := 1 })
  else
    (s, { watchdog_fed := fed, stall_trigger_calls := stall_calls, aggregate_trigger_calls := 0 })

/-- The monitor state after safety_monitor_init (faults clear, no
emergency; the static stall-tracking variables start at zero). -/
def safety_monitor_initial : SafetyState where
  faults := FaultFlags.clear
  emergency := false
  last_heartbeat := 0
  stall_count := 0

/-- A whole run: ticks of safety_monitor_run over a list of per-tick
inputs, accumulating the total number of trigger_emergency_blow
invocations made by the aggregated-critical-fault check. -/
def safety_run_trace (s : SafetyState) : List SafetyInputs → SafetyState × Nat
  | [] => (s, 0)
  | inp :: rest =>
      let r1 := safety_monitor_run s inp
      let r2 := safety_run_trace r1.1 rest
      (r2.1, r1.2.aggregate_trigger_calls + r2.2)

/-- A tick's worth of inputs with the core-1 heartbeat frozen at 0 and
everything else healthy (fresh RC, good battery, dry, level, shallow). -/
def safety_inputs_frozen : SafetyInputs := ⟨0, 0, 8000, false, 0, 0, 0⟩

/-- One safety-monitor tick under safety_inputs_frozen, state part. -/
def safety_step_frozen (s : SafetyState) : SafetyState :=
  (safety_monitor_run s safety_inputs_frozen).1

/-- All of log.c initialisation followed by one log_event call per list
element, in order. -/
def log_append_all (xs : List EventLogEntry) : EventLog :=
  xs.foldl (fun l e => log_event l e.timestamp_ms e.code e.param1 e.param2) log_init

/-- The state half of pid_update, for iterating updates. -/
def pid_update_state (setpoint measurement dt : ℚ) (pid : PidController) :
    PidController :=
  (pid_update pid setpoint measurement dt).1

/-! Theorems. -/

/-- C3: Once a StateMachine_t is in STATE_EMERGENCY (which it only enters
through state_machine_trigger_emergency, which also forces ballast target
-100 and depth hold off), every state_machine_process call — for every
command, measured depth and time — leaves the state STATE_EMERGENCY, the
ballast target fully empty (-100) and depth hold disabled.  Stated as:
trigger_emergency establishes the emergency configuration, and
state_machine_process preserves it. -/
theorem emergency_absorbing :
    (∀ sm : StateMachine,
      (state_machine_trigger_emergency sm).state = MainState.EMERGENCY ∧
      (state_machine_trigger_emergency sm).ballast_target_level = -100 ∧
      (state_machine_trigger_emergency sm).depth_hold_enabled = false) ∧
    (∀ (sm : StateMachine) (cmd : Command) (depth_cm : Int) (now_ms : Nat),
      sm.state = MainState.EMERGENCY →
      sm.ballast_target_level = -100 →
      sm.depth_hold_enabled = false →
      (state_machine_process sm cmd depth_cm now_ms).state = MainState.EMERGENCY ∧
      (state_machine_process sm cmd depth_cm now_ms).ballast_target_level = -100 ∧
      (state_machine_process sm cmd depth_cm now_ms).depth_hold_enabled = false) := by
  constructor
  · intro sm
    simp [state_machine_trigger_emergency, state_machine_set_outputs]
  · intro sm cmd depth_cm now_ms hs hb hd
    by_cases hc : cmd = Command.EMERGENCY
    · simp [state_machine_process, hc, state_machine_trigger_emergency,
        state_machine_set_outputs]
    · simp [state_machine_process, hc, hs, hb, hd]

/-- C3 witness: the emergency configuration at a concrete input. -/
theorem emergency_absorbing_witness :
    (⟨MainState.EMERGENCY, 0, 0, -100, false⟩ : StateMachine).state = MainState.EMERGENCY ∧
    (state_machine_process ⟨MainState.EMERGENCY, 0, 0, -100, false⟩
        Command.DIVE 120 7).state = MainState.EMERGENCY ∧
    (state_machine_process ⟨MainState.EMERGENCY, 0, 0, -100, false⟩
        Command.DIVE 120 7).ballast_target_level = -100 ∧
    (state_machine_process ⟨MainState.EMERGENCY, 0, 0, -100, false⟩
        Command.DIVE 120 7).depth_hold_enabled = false :=
  ⟨rfl, emergency_absorbing.2 ⟨MainState.EMERGENCY, 0, 0, -100, false⟩
    Command.DIVE 120 7 rfl rfl rfl⟩

/-- C7 counterexample: in SubmergedManual with stored target 150, a
depth-hold command with measured depth 400 (above MAX_DEPTH_CM = 300)
moves to SubmergedDepthHold but keeps the old target 150 instead of the
measured depth: the claim fails for out-of-range measured depths. -/
theorem depth_hold_out_of_range_keeps_target :
    (state_machine_process ⟨MainState.SUBMERGED_MANUAL, 150, 0, 0, false⟩
        Command.DEPTH_HOLD 400 5).state = MainState.SUBMERGED_DEPTH_HOLD ∧
    (state_machine_process ⟨MainState.SUBMERGED_MANUAL, 150, 0, 0, false⟩
        Command.DEPTH_HOLD 400 5).target_depth_cm = 150 ∧
    (150 : Int) ≠ 400 := by
  refine ⟨?_, ?_, by decide⟩ <;> decide

/-- C7 amended: in SubmergedManual a depth-hold command always moves to
SubmergedDepthHold with depth hold enabled and ballast target 0; the
stored depth target becomes the measured depth passed to that same call
whenever it lies in [0, MAX_DEPTH_CM], and is left at the previous
target otherwise (the reject-out-of-range policy of
state_machine_set_target_depth). -/
theorem depth_hold_sets_measured_depth :
    ∀ (sm : StateMachine) (depth_cm : Int) (now_ms : Nat),
      sm.state = MainState.SUBMERGED_MANUAL →
      (state_machine_process sm Command.DEPTH_HOLD depth_cm now_ms).state =
          MainState.SUBMERGED_DEPTH_HOLD ∧
      (state_machine_process sm Command.DEPTH_HOLD depth_cm now_ms).depth_hold_enabled =
          true ∧
      (state_machine_process sm Command.DEPTH_HOLD depth_cm now_ms).ballast_target_level =
          0 ∧
      (state_machine_process sm Command.DEPTH_HOLD depth_cm now_ms).target_depth_cm =
        (if depth_cm < 0 ∨ depth_cm > MAX_DEPTH_CM then sm.target_depth_cm else depth_cm) := by
  intro sm depth_cm now_ms hs
  simp [state_machine_process, state_machine_handle_submerged_manual,
    state_machine_set_outputs, state_machine_set_target_depth, hs]
  split <;> simp

/-- C7 witness: the spec scenario — stored target 150, depth-hold at
measured depth 60 stores 60, not 150. -/
theorem depth_hold_sets_measured_depth_witness :
    (⟨MainState.SUBMERGED_MANUAL, 150, 0, 0, false⟩ : StateMachine).state =
        MainState.SUBMERGED_MANUAL ∧
    (state_machine_process ⟨MainState.SUBMERGED_MANUAL, 150, 0, 0, false⟩
        Command.DEPTH_HOLD 60 10).state = MainState.SUBMERGED_DEPTH_HOLD ∧
    (state_machine_process ⟨MainState.SUBMERGED_MANUAL, 150, 0, 0, false⟩
        Command.DEPTH_HOLD 60 10).depth_hold_enabled = true ∧
    (state_machine_process ⟨MainState.SUBMERGED_MANUAL, 150, 0, 0, false⟩
        Command.DEPTH_HOLD 60 10).ballast_target_level = 0 ∧
    (state_machine_process ⟨MainState.SUBMERGED_MANUAL, 150, 0, 0, false⟩
        Command.DEPTH_HOLD 60 10).target_depth_cm =
      (if (60 : Int) < 0 ∨ (60 : Int) > MAX_DEPTH_CM then
        (⟨MainState.SUBMERGED_MANUAL, 150, 0, 0, false⟩ : StateMachine).target_depth_cm
       else 60) :=
  ⟨rfl, depth_hold_sets_measured_depth
    ⟨MainState.SUBMERGED_MANUAL, 150, 0, 0, false⟩ 60 10 rfl⟩

/-- Fields of the ballast controller that ballast_update_level never
touches. -/
theorem ballast_update_level_fixed_fields (ctrl : BallastController)
    (direction : Int) (now_ms : Nat) :
    (ballast_update_level ctrl direction now_ms).state = ctrl.state ∧
    (ballast_update_level ctrl direction now_ms).target_level = ctrl.target_level ∧
    (ballast_update_level ctrl direction now_ms).fill_time_ms = ctrl.fill_time_ms := by
  unfold ballast_update_level
  split <;> exact ⟨rfl, rfl, rfl⟩

/-- clamp_i8 always lands inside [lo, hi]. -/
theorem clamp_i8_range (v lo hi : Int) (h : lo ≤ hi) :
    lo ≤ clamp_i8 v lo hi ∧ clamp_i8 v lo hi ≤ hi := by
  unfold clamp_i8
  split_ifs <;> omega

/-- After ballast_update_level the fixed-point level is inside
[-100000, 100000] and the int8 level inside [-100, 100], whenever they
were before (the clamping of the integration step). -/
theorem ballast_update_level_range (ctrl : BallastController)
    (direction : Int) (now_ms : Nat)
    (h1 : -100000 ≤ ctrl.current_level_x1000) (h2 : ctrl.current_level_x1000 ≤ 100000)
    (h3 : -100 ≤ ctrl.current_level) (h4 : ctrl.current_level ≤ 100) :
    -100000 ≤ (ballast_update_level ctrl direction now_ms).current_level_x1000 ∧
    (ballast_update_level ctrl direction now_ms).current_level_x1000 ≤ 100000 ∧
    -100 ≤ (ballast_update_level ctrl direction now_ms).current_level ∧
    (ballast_update_level ctrl direction now_ms).current_level ≤ 100 := by
  by_cases h0 : ctrl.last_update_ms = 0
  · simp only [ballast_update_level, if_pos h0]
    exact ⟨h1, h2, h3, h4⟩
  · simp only [ballast_update_level, if_neg h0]
    refine ⟨?_, ?_, (clamp_i8_range _ _ _ (by norm_num)).1,
      (clamp_i8_range _ _ _ (by norm_num)).2⟩ <;>
    · simp only [BALLAST_SCALE_X1000]
      split_ifs <;> omega

/-- C9: in the ballast state machine, an Idle update whose level error is
within the tolerance leaves the controller unchanged with pump 0 and
valve closed; leaving Idle requires the error to strictly exceed the
tolerance, giving Filling (pump 100, valve closed) when target > current
and Draining (pump -100, valve open) when target < current; Holding
reverts to Idle exactly when the error strictly exceeds twice the
tolerance. -/
theorem ballast_idle_holding_tolerance :
    ∀ (ctrl : BallastController) (now_ms : Nat),
      (ctrl.state = BallastState.IDLE →
        c_abs (ctrl.target_level - ctrl.current_level) ≤ BALLAST_LEVEL_TOLERANCE →
        ballast_ctrl_update ctrl now_ms = (ctrl, 0, false)) ∧
      (ctrl.state = BallastState.IDLE →
        BALLAST_LEVEL_TOLERANCE < c_abs (ctrl.target_level - ctrl.current_level) →
        (ctrl.current_level < ctrl.target_level →
          (ballast_ctrl_update ctrl now_ms).1.state = BallastState.FILLING ∧
          (ballast_ctrl_update ctrl now_ms).2 = (100, false)) ∧
        (ctrl.target_level < ctrl.current_level →
          (ballast_ctrl_update ctrl now_ms).1.state = BallastState.DRAINING ∧
          (ballast_ctrl_update ctrl now_ms).2 = (-100, true))) ∧
      (ctrl.state = BallastState.IDLE →
        (ballast_ctrl_update ctrl now_ms).1.state ≠ BallastState.IDLE →
        BALLAST_LEVEL_TOLERANCE < c_abs (ctrl.target_level - ctrl.current_level)) ∧
      (ctrl.state = BallastState.HOLDING →
        ((ballast_ctrl_update ctrl now_ms).1.state = BallastState.IDLE ↔
          BALLAST_LEVEL_TOLERANCE * 2 < c_abs (ctrl.target_level - ctrl.current_level))) := by
  intro ctrl now_ms
  refine ⟨?_, ?_, ?_, ?_⟩
  · intro hs hle
    simp only [ballast_ctrl_update, hs]
    rw [if_neg (by omega)]
  · intro hs hgt
    simp only [ballast_ctrl_update, hs]
    rw [if_pos (by omega)]
    constructor
    · intro hlt
      rw [if_pos (by omega)]
      exact ⟨rfl, rfl⟩
    · intro hlt
      rw [if_neg (by omega)]
      exact ⟨rfl, rfl⟩
  · intro hs hne
    by_contra hle
    apply hne
    simp only [ballast_ctrl_update, hs]
    rw [if_neg (by omega)]
    exact hs
  · intro hs
    simp only [ballast_ctrl_update, hs]
    split
    · next h => exact ⟨fun _ => h, fun _ => rfl⟩
    · next h =>
        show ctrl.state = BallastState.IDLE ↔ _
        rw [hs]
        exact ⟨fun habs => absurd habs (by decide), fun hc => absurd hc h⟩

/-- C9 witness: from Idle with error exactly at the tolerance (target 5,
current 0) nothing happens: the controller is unchanged, pump 0, valve
closed. -/
theorem ballast_idle_holding_tolerance_witness :
    ({ ballast_ctrl_init with target_level := 5 }).state = BallastState.IDLE ∧
    c_abs (({ ballast_ctrl_init with target_level := 5 }).target_level -
        ({ ballast_ctrl_init with target_level := 5 }).current_level) ≤
      BALLAST_LEVEL_TOLERANCE ∧
    ballast_ctrl_update { ballast_ctrl_init with target_level := 5 } 100 =
      ({ ballast_ctrl_init with target_level := 5 }, 0, false) :=
  ⟨rfl, by decide,
    (ballast_idle_holding_tolerance { ballast_ctrl_init with target_level := 5 } 100).1
      rfl (by decide)⟩

/-- C10: leaving Idle for Filling or Draining resets the internal
timestamp accumulator to the zero sentinel; a level-integration step that
sees the zero sentinel only records the current time and leaves the level
estimate untouched, for every now_ms; and one ballast_ctrl_update step
keeps the target, the int8 level and the fixed-point level inside their
[-100, 100] (resp. scaled) ranges, ballast_ctrl_set_target always
producing an in-range target. -/
theorem ballast_timestamp_reset_and_range :
    (∀ (ctrl : BallastController) (now_ms : Nat),
      ctrl.state = BallastState.IDLE →
      (ballast_ctrl_update ctrl now_ms).1.state ≠ BallastState.IDLE →
      (ballast_ctrl_update ctrl now_ms).1.last_update_ms = 0) ∧
    (∀ (ctrl : BallastController) (direction : Int) (now_ms : Nat),
      ctrl.last_update_ms = 0 →
      ballast_update_level ctrl direction now_ms = { ctrl with last_update_ms := now_ms }) ∧
    (∀ (ctrl : BallastController) (now_ms : Nat),
      -100 ≤ ctrl.target_level → ctrl.target_level ≤ 100 →
      -100 ≤ ctrl.current_level → ctrl.current_level ≤ 100 →
      -100000 ≤ ctrl.current_level_x1000 → ctrl.current_level_x1000 ≤ 100000 →
      (-100 ≤ (ballast_ctrl_update ctrl now_ms).1.current_level ∧
       (ballast_ctrl_update ctrl now_ms).1.current_level ≤ 100 ∧
       -100 ≤ (ballast_ctrl_update ctrl now_ms).1.target_level ∧
       (ballast_ctrl_update ctrl now_ms).1.target_level ≤ 100 ∧
       -100000 ≤ (ballast_ctrl_update ctrl now_ms).1.current_level_x1000 ∧
       (ballast_ctrl_update ctrl now_ms).1.current_level_x1000 ≤ 100000)) ∧
    (∀ (ctrl : BallastController) (level : Int),
      -100 ≤ (ballast_ctrl_set_target ctrl level).target_level ∧
      (ballast_ctrl_set_target ctrl level).target_level ≤ 100) := by
  refine ⟨?_, ?_, ?_, ?_⟩
  · intro ctrl now_ms hs hne
    by_cases hgt : c_abs (ctrl.target_level - ctrl.current_level) > BALLAST_LEVEL_TOLERANCE
    · simp only [ballast_ctrl_update, hs, if_pos hgt]
      by_cases hpos : ctrl.target_level - ctrl.current_level > 0
      · rw [if_pos hpos]
      · rw [if_neg hpos]
    · exfalso
      apply hne
      simp only [ballast_ctrl_update, hs, if_neg hgt]
  · intro ctrl direction now_ms h0
    simp [ballast_update_level, h0]
  · intro ctrl now_ms ht1 ht2 hc1 hc2 hx1 hx2
    cases hst : ctrl.state
    case IDLE =>
      simp only [ballast_ctrl_update, hst]
      split_ifs <;> exact ⟨hc1, hc2, ht1, ht2, hx1, hx2⟩
    case FILLING =>
      have hf := ballast_update_level_fixed_fields ctrl 1 now_ms
      have hr := ballast_update_level_range ctrl 1 now_ms hx1 hx2 hc1 hc2
      simp only [ballast_ctrl_update, hst]
      split
      · simp only [hf.2.1, BALLAST_SCALE_X1000]
        omega
      · exact ⟨hr.2.2.1, hr.2.2.2, by rw [hf.2.1]; exact ht1,
          by rw [hf.2.1]; exact ht2, hr.1, hr.2.1⟩
    case DRAINING =>
      have hf := ballast_update_level_fixed_fields ctrl (-1) now_ms
      have hr := ballast_update_level_range ctrl (-1) now_ms hx1 hx2 hc1 hc2
      simp only [ballast_ctrl_update, hst]
      split
      · simp only [hf.2.1, BALLAST_SCALE_X1000]
        omega
      · exact ⟨hr.2.2.1, hr.2.2.2, by rw [hf.2.1]; exact ht1,
          by rw [hf.2.1]; exact ht2, hr.1, hr.2.1⟩
    case HOLDING =>
      simp only [ballast_ctrl_update, hst]
      split_ifs <;> exact ⟨hc1, hc2, ht1, ht2, hx1, hx2⟩
  · intro ctrl level
    exact clamp_i8_range level (-100) 100 (by norm_num)

/-- Fields check_rc_signal never touches. -/
theorem check_rc_signal_fields (f : FaultFlags) (now_ms last_rc_valid_ms : Nat) :
    (check_rc_signal f now_ms last_rc_valid_ms).low_battery = f.low_battery ∧
    (check_rc_signal f now_ms last_rc_valid_ms).leak = f.leak ∧
    (check_rc_signal f now_ms last_rc_valid_ms).depth_exceeded = f.depth_exceeded ∧
    (check_rc_signal f now_ms last_rc_valid_ms).pitch_exceeded = f.pitch_exceeded := by
  unfold check_rc_signal
  split <;> exact ⟨rfl, rfl, rfl, rfl⟩

/-- check_battery only ever sets low_battery and touches nothing else. -/
theorem check_battery_fields (f : FaultFlags) (batt_mv : Nat) :
    (f.low_battery = true → (check_battery f batt_mv).low_battery = true) ∧
    (check_battery f batt_mv).leak = f.leak ∧
    (check_battery f batt_mv).depth_exceeded = f.depth_exceeded ∧
    (check_battery f batt_mv).pitch_exceeded = f.pitch_exceeded := by
  unfold check_battery
  split
  · exact ⟨fun _ => rfl, rfl, rfl, rfl⟩
  · exact ⟨fun h => h, rfl, rfl, rfl⟩

/-- check_sensors only ever sets leak, depth_exceeded and pitch_exceeded
and leaves low_battery alone. -/
theorem check_sensors_fields (f : FaultFlags) (leak_detected : Bool)
    (depth_cm pitch_x10 : Int) :
    (check_sensors f leak_detected depth_cm pitch_x10).low_battery = f.low_battery ∧
    (f.leak = true → (check_sensors f leak_detected depth_cm pitch_x10).leak = true) ∧
    (f.depth_exceeded = true →
      (check_sensors f leak_detected depth_cm pitch_x10).depth_exceeded = true) ∧
    (f.pitch_exceeded = true →
      (check_sensors f leak_detected depth_cm pitch_x10).pitch_exceeded = true) := by
  simp only [check_sensors]
  split_ifs <;> exact ⟨rfl, by simp, by simp, by simp⟩

/-- Fields check_core1_health never touches. -/
theorem check_core1_health_fields (s : SafetyState) (core1_heartbeat : Nat) :
    (check_core1_health s core1_heartbeat).1.emergency = s.emergency ∧
    (check_core1_health s core1_heartbeat).1.faults.low_battery = s.faults.low_battery ∧
    (check_core1_health s core1_heartbeat).1.faults.leak = s.faults.leak ∧
    (check_core1_health s core1_heartbeat).1.faults.depth_exceeded = s.faults.depth_exceeded ∧
    (check_core1_health s core1_heartbeat).1.faults.pitch_exceeded = s.faults.pitch_exceeded := by
  simp only [check_core1_health]
  split_ifs <;> exact ⟨rfl, rfl, rfl, rfl, rfl⟩

/-- The fault flags after one safety_monitor_run tick are exactly those
left by the four checks run in order (the final emergency latching step
does not touch them). -/
theorem safety_monitor_run_faults (s : SafetyState) (inp : SafetyInputs) :
    (safety_monitor_run s inp).1.faults =
      (check_core1_health
        { s with faults := check_sensors
                             (check_battery
                               (check_rc_signal s.faults inp.now_ms inp.last_rc_valid_ms)
                               inp.batt_mv)
                             inp.leak_detected inp.depth_cm inp.pitch_x10 }
        inp.core1_heartbeat).1.faults := by
  simp only [safety_monitor_run]
  split <;> rfl

/-- One safety_monitor_run tick either leaves the aggregate path silent
and the emergency latch unchanged, or fires the aggregate trigger once,
moving the latch from false to true. -/
theorem safety_monitor_run_emergency_cases (s : SafetyState) (inp : SafetyInputs) :
    ((safety_monitor_run s inp).2.aggregate_trigger_calls = 0 ∧
      (safety_monitor_run s inp).1.emergency = s.emergency) ∨
    ((safety_monitor_run s inp).2.aggregate_trigger_calls = 1 ∧
      (safety_monitor_run s inp).1.emergency = true ∧ s.emergency = false) := by
  have he := (check_core1_health_fields
    { s with faults := check_sensors
                         (check_battery
                           (check_rc_signal s.faults inp.now_ms inp.last_rc_valid_ms)
                           inp.batt_mv)
                         inp.leak_detected inp.depth_cm inp.pitch_x10 }
    inp.core1_heartbeat).1
  simp only [safety_monitor_run]
  split
  · next h =>
      right
      refine ⟨rfl, rfl, ?_⟩
      have h2 := h.2
      rw [he] at h2
      simpa using h2
  · next h =>
      left
      exact ⟨rfl, he⟩

/-- C1 counterexample: a tick taken with the leak fault raised (and the
leak input still wet, so the aggregated fault set is nonempty before and
after the tick) still feeds the hardware watchdog, contradicting the
claimed feed-only-if-no-fault discipline. -/
theorem watchdog_fed_despite_fault :
    (⟨{ FaultFlags.clear with leak := true }, false, 0, 0⟩ : SafetyState).faults.anySet = true ∧
    (safety_monitor_run ⟨{ FaultFlags.clear with leak := true }, false, 0, 0⟩
        ⟨0, 0, 8000, true, 0, 0, 1⟩).1.faults.anySet = true ∧
    (safety_monitor_run ⟨{ FaultFlags.clear with leak := true }, false, 0, 0⟩
        ⟨0, 0, 8000, true, 0, 0, 1⟩).2.watchdog_fed = true := by
  refine ⟨by decide, by decide, by decide⟩

/-- C1 amended: safety_monitor_run feeds the hardware watchdog on every
call, unconditionally — step 1 of the loop runs before any fault
evaluation and does not consult the fault set. -/
theorem watchdog_always_fed :
    ∀ (s : SafetyState) (inp : SafetyInputs),
      (safety_monitor_run s inp).2.watchdog_fed = true := by
  intro s inp
  simp only [safety_monitor_run]
  split <;> rfl

/-- C2 counterexample: from the initial monitor state, ten ticks with a
frozen core-1 heartbeat reach the recorded state, and the eleventh tick
— the first that observes a critical fault (core1_stall rising) —
invokes trigger_emergency_blow twice: once from check_core1_health and
once from the aggregate check, not exactly once. -/
theorem stall_tick_double_trigger :
    safety_step_frozen^[10] safety_monitor_initial = ⟨FaultFlags.clear, false, 0, 10⟩ ∧
    (safety_monitor_run ⟨FaultFlags.clear, false, 0, 10⟩
        safety_inputs_frozen).2.stall_trigger_calls = 1 ∧
    (safety_monitor_run ⟨FaultFlags.clear, false, 0, 10⟩
        safety_inputs_frozen).2.aggregate_trigger_calls = 1 := by
  refine ⟨by decide, by decide, by decide⟩

/-- C2 amended: over any whole run (any input sequence), the
aggregated-critical-fault check invokes trigger_emergency_blow at most
once — and never once the emergency latch is set; the core-stall check
however invokes trigger_emergency_blow separately on a rising core-stall
edge, so one tick can see two invocations in the same run. -/
theorem aggregate_trigger_at_most_once :
    (∀ (s : SafetyState) (inps : List SafetyInputs),
      s.emergency = true → (safety_run_trace s inps).2 = 0) ∧
    (∀ (s : SafetyState) (inps : List SafetyInputs),
      (safety_run_trace s inps).2 ≤ 1) ∧
    (∃ (s : SafetyState) (inp : SafetyInputs),
      (safety_monitor_run s inp).2.stall_trigger_calls = 1 ∧
      (safety_monitor_run s inp).2.aggregate_trigger_calls = 1) := by
  have hzero : ∀ (inps : List SafetyInputs) (s : SafetyState),
      s.emergency = true → (safety_run_trace s inps).2 = 0 := by
    intro inps
    induction inps with
    | nil => intro s _; rfl
    | cons i rest ih =>
        intro s hem
        simp only [safety_run_trace]
        rcases safety_monitor_run_emergency_cases s i with ⟨h0, he⟩ | ⟨h1, he, hs0⟩
        · rw [h0, ih (safety_monitor_run s i).1 (by rw [he, hem])]
        · rw [hem] at hs0
          exact absurd hs0 (by decide)
  refine ⟨fun s inps h => hzero inps s h, ?_, ?_⟩
  · intro s inps
    induction inps generalizing s with
    | nil => exact Nat.zero_le 1
    | cons i rest ih =>
        simp only [safety_run_trace]
        rcases safety_monitor_run_emergency_cases s i with ⟨h0, he⟩ | ⟨h1, he, hs0⟩
        · have hrest := ih (safety_monitor_run s i).1
          rw [h0]
          omega
        · have h2 := hzero rest (safety_monitor_run s i).1 he
          rw [h1, h2]
  · exact ⟨⟨FaultFlags.clear, false, 0, 10⟩, safety_inputs_frozen, by decide, by decide⟩

/-- C4 counterexample: the core1_stall fault does not persist — the
recorded state is reached from the initial monitor state by eleven
frozen-heartbeat ticks (core1_stall set), and one further tick with a
resumed heartbeat clears it again. -/
theorem core1_stall_self_clears :
    safety_step_frozen^[11] safety_monitor_initial =
      ⟨{ FaultFlags.clear with core1_stall := true }, true, 0, 11⟩ ∧
    (⟨{ FaultFlags.clear with core1_stall := true }, true, 0, 11⟩ : SafetyState).faults.core1_stall = true ∧
    (safety_monitor_run ⟨{ FaultFlags.clear with core1_stall := true }, true, 0, 11⟩
        ⟨0, 0, 8000, false, 0, 0, 1⟩).1.faults.core1_stall = false := by
  refine ⟨by decide, by decide, by decide⟩

/-- C4 amended: of the non-signal_lost fault flags, low_battery, leak,
depth_exceeded and pitch_exceeded persist across every
safety_monitor_run tick once set, regardless of the sensor values;
core_stall (like signal_lost) clears automatically when its condition
clears (heartbeat resumption). -/
theorem fault_flags_persist :
    ∀ (s : SafetyState) (inp : SafetyInputs),
      (s.faults.low_battery = true →
        (safety_monitor_run s inp).1.faults.low_battery = true) ∧
      (s.faults.leak = true → (safety_monitor_run s inp).1.faults.leak = true) ∧
      (s.faults.depth_exceeded = true →
        (safety_monitor_run s inp).1.faults.depth_exceeded = true) ∧
      (s.faults.pitch_exceeded = true →
        (safety_monitor_run s inp).1.faults.pitch_exceeded = true) := by
  intro s inp
  have hrc := check_rc_signal_fields s.faults inp.now_ms inp.last_rc_valid_ms
  have hbat := check_battery_fields
    (check_rc_signal s.faults inp.now_ms inp.last_rc_valid_ms) inp.batt_mv
  have hsen := check_sensors_fields
    (check_battery (check_rc_signal s.faults inp.now_ms inp.last_rc_valid_ms) inp.batt_mv)
    inp.leak_detected inp.depth_cm inp.pitch_x10
  have hc1 := check_core1_health_fields
    { s with faults := check_sensors
                         (check_battery
                           (check_rc_signal s.faults inp.now_ms inp.last_rc_valid_ms)
                           inp.batt_mv)
                         inp.leak_detected inp.depth_cm inp.pitch_x10 }
    inp.core1_heartbeat
  rw [safety_monitor_run_faults]
  refine ⟨?_, ?_, ?_, ?_⟩
  · intro h
    rw [hc1.2.1, hsen.1]
    exact hbat.1 (hrc.1.trans h)
  · intro h
    rw [hc1.2.2.1]
    exact hsen.2.1 (by rw [hbat.2.1, hrc.2.1]; exact h)
  · intro h
    rw [hc1.2.2.2.1]
    exact hsen.2.2.1 (by rw [hbat.2.2.1, hrc.2.2.1]; exact h)
  · intro h
    rw [hc1.2.2.2.2]
    exact hsen.2.2.2 (by rw [hbat.2.2.2, hrc.2.2.2]; exact h)

/-- C4 witness: a raised leak flag is still raised after a tick whose
leak reading is dry again (the spec scenario of a one-tick leak). -/
theorem fault_flags_persist_witness :
    (⟨{ FaultFlags.clear with leak := true }, true, 5, 0⟩ : SafetyState).faults.leak = true ∧
    (safety_monitor_run ⟨{ FaultFlags.clear with leak := true }, true, 5, 0⟩
        ⟨0, 0, 8000, false, 0, 0, 3⟩).1.faults.leak = true :=
  ⟨rfl, (fault_flags_persist ⟨{ FaultFlags.clear with leak := true }, true, 5, 0⟩
    ⟨0, 0, 8000, false, 0, 0, 3⟩).2.1 rfl⟩

/-- pid_update never changes the configured integral limit. -/
theorem pid_update_preserves_limit (pid : PidController) (setpoint measurement dt : ℚ) :
    (pid_update pid setpoint measurement dt).1.integral_limit = pid.integral_limit := by
  simp only [pid_update]
  split <;> rfl

/-- After one pid_update with dt > 0 and a non-negative integral limit,
the integral accumulator lies within the limit (the anti-windup clamp). -/
theorem pid_update_integral_clamped (pid : PidController) (setpoint measurement dt : ℚ)
    (hdt : 0 < dt) (hL : 0 ≤ pid.integral_limit) :
    |(pid_update pid setpoint measurement dt).1.integral| ≤ pid.integral_limit := by
  simp only [pid_update, if_neg (not_le.mpr hdt)]
  split_ifs with h1 h2
  · rw [abs_of_nonneg hL]
  · rw [abs_neg, abs_of_nonneg hL]
  · rw [abs_le]
    constructor <;> linarith

/-- C6: for every controller whose integral limit is non-negative, after
every pid_update call with dt > 0 the integral accumulator satisfies
|integral| ≤ integral_limit — in particular after any number n ≥ 1 of
identical updates (sustained constant error), the integral never exceeds
the limit. -/
theorem pid_integral_bounded :
    ∀ (pid : PidController) (setpoint measurement dt : ℚ),
      0 < dt → 0 ≤ pid.integral_limit →
      |(pid_update pid setpoint measurement dt).1.integral| ≤ pid.integral_limit ∧
      ∀ n : ℕ, 1 ≤ n →
        |((pid_update_state setpoint measurement dt)^[n] pid).integral| ≤
          pid.integral_limit := by
  intro pid setpoint measurement dt hdt hL
  have hlim : ∀ n : ℕ,
      ((pid_update_state setpoint measurement dt)^[n] pid).integral_limit =
        pid.integral_limit := by
    intro n
    induction n with
    | zero => rfl
    | succ k ih =>
        rw [Function.iterate_succ_apply']
        simp only [pid_update_state, pid_update_preserves_limit]
        exact ih
  refine ⟨pid_update_integral_clamped pid setpoint measurement dt hdt hL, ?_⟩
  intro n hn
  obtain ⟨k, rfl⟩ : ∃ k, n = k + 1 := ⟨n - 1, by omega⟩
  rw [Function.iterate_succ_apply']
  have hstep := pid_update_integral_clamped
    ((pid_update_state setpoint measurement dt)^[k] pid) setpoint measurement dt hdt
    (by rw [hlim k]; exact hL)
  rw [hlim k] at hstep
  exact hstep

/-- C6 witness: one update on a freshly initialised controller (limit
1000) keeps the integral within the limit. -/
theorem pid_integral_bounded_witness :
    (0 : ℚ) < 1 ∧ (0 : ℚ) ≤ (pid_init 1 1 1).integral_limit ∧
    |(pid_update (pid_init 1 1 1) 5 0 1).1.integral| ≤ (pid_init 1 1 1).integral_limit :=
  ⟨one_pos, by norm_num [pid_init],
    (pid_integral_bounded (pid_init 1 1 1) 5 0 1 one_pos (by norm_num [pid_init])).1⟩

/-- C5 counterexample: with gains kp = ki = 0, kd = 1 (derivative on
measurement, the pid_init default), reset followed by one update with
setpoint 0, measurement 1, dt 1 returns -1 — the derivative term
-kd*(measurement - 0)/dt — while the claimed formula
clamp(kp*e + ki*e*dt) gives 0: the claim fails whenever kd ≠ 0. -/
theorem pid_first_update_derivative_kick :
    (pid_update (pid_reset (pid_init 0 0 1)) 0 1 1).2 = -1 ∧
    (pid_init 0 0 1).kp * ((0 : ℚ) - 1) + (pid_init 0 0 1).ki * (((0 : ℚ) - 1) * 1) = 0 ∧
    (-1 : ℚ) ≠ 0 := by
  refine ⟨?_, by norm_num [pid_init], by norm_num⟩
  norm_num [pid_update, pid_reset, pid_init]

/-- C5 amended: for every gain configuration and dt > 0, reset followed
by one update with setpoint s and measurement m (e = s - m) returns
clamp(kp*e + ki*clamp(e*dt, ±integral_limit) + d, [output_min, output_max])
where d = -kd*(m/dt) in derivative-on-measurement mode and kd*(e/dt)
otherwise — independent of the controller state before the reset; the
claimed clamp(kp*e + ki*e*dt) form holds exactly when kd = 0 and
|e*dt| ≤ integral_limit. -/
theorem pid_reset_single_update :
    ∀ (pid : PidController) (setpoint measurement dt : ℚ), 0 < dt →
      ((pid_update (pid_reset pid) setpoint measurement dt).2 =
        (let error := setpoint - measurement
         let integral := if error * dt > pid.integral_limit then pid.integral_limit
           else if error * dt < -pid.integral_limit then -pid.integral_limit
           else error * dt
         let d_term := if pid.use_derivative_on_measurement then
             -pid.kd * (measurement / dt)
           else pid.kd * (error / dt)
         let output := pid.kp * error + pid.ki * integral + d_term
         if output > pid.output_max then pid.output_max
         else if output < pid.output_min then pid.output_min
         else output)) ∧
      (pid.kd = 0 → |(setpoint - measurement) * dt| ≤ pid.integral_limit →
        (pid_update (pid_reset pid) setpoint measurement dt).2 =
          (let error := setpoint - measurement
           let output := pid.kp * error + pid.ki * (error * dt)
           if output > pid.output_max then pid.output_max
           else if output < pid.output_min then pid.output_min
           else output)) := by
  intro pid setpoint measurement dt hdt
  have hmain : (pid_update (pid_reset pid) setpoint measurement dt).2 =
      (let error := setpoint - measurement
       let integral := if error * dt > pid.integral_limit then pid.integral_limit
         else if error * dt < -pid.integral_limit then -pid.integral_limit
         else error * dt
       let d_term := if pid.use_derivative_on_measurement then
           -pid.kd * (measurement / dt)
         else pid.kd * (error / dt)
       let output := pid.kp * error + pid.ki * integral + d_term
       if output > pid.output_max then pid.output_max
       else if output < pid.output_min then pid.output_min
       else output) := by
    simp only [pid_update, pid_reset, if_neg (not_le.mpr hdt), zero_add, sub_zero]
  refine ⟨hmain, fun hkd habs => ?_⟩
  have hc := abs_le.mp habs
  rw [hmain]
  simp only [hkd, neg_zero, zero_mul, ite_self, add_zero,
    if_neg (not_lt.mpr hc.2), if_neg (not_lt.mpr hc.1)]

/-- C5 witness: kp = 2, ki = 3, kd = 0 (so the claimed form applies),
setpoint 1, measurement 0, dt 1. -/
theorem pid_reset_single_update_witness :
    (0 : ℚ) < 1 ∧
    (pid_update (pid_reset (pid_init 2 3 0)) 1 0 1).2 =
      (let error := (1 : ℚ) - 0
       let integral := if error * 1 > (pid_init 2 3 0).integral_limit then
           (pid_init 2 3 0).integral_limit
         else if error * 1 < -(pid_init 2 3 0).integral_limit then
           -(pid_init 2 3 0).integral_limit
         else error * 1
       let d_term := if (pid_init 2 3 0).use_derivative_on_measurement then
           -(pid_init 2 3 0).kd * ((0 : ℚ) / 1)
         else (pid_init 2 3 0).kd * (error / 1)
       let output := (pid_init 2 3 0).kp * error + (pid_init 2 3 0).ki * integral + d_term
       if output > (pid_init 2 3 0).output_max then (pid_init 2 3 0).output_max
       else if output < (pid_init 2 3 0).output_min then (pid_init 2 3 0).output_min
       else output) :=
  ⟨one_pos, (pid_reset_single_update (pid_init 2 3 0) 1 0 1 one_pos).1⟩

/-- C10 witness: a controller that just left Idle (zero timestamp
sentinel): the integration step only records the time. -/
theorem ballast_timestamp_reset_and_range_witness :
    ({ ballast_ctrl_init with state := BallastState.FILLING, target_level := 50 }).last_update_ms = 0 ∧
    ballast_update_level { ballast_ctrl_init with state := BallastState.FILLING, target_level := 50 } 1 777 =
      { ({ ballast_ctrl_init with state := BallastState.FILLING, target_level := 50 } : BallastController) with last_update_ms := 777 } :=
  ⟨rfl, ballast_timestamp_reset_and_range.2.1
    { ballast_ctrl_init with state := BallastState.FILLING, target_level := 50 } 1 777 rfl⟩

/-- next_index applied to a reduced index is the next reduced index. -/
theorem next_index_mod (L : Nat) :
    next_index (L % EVENT_LOG_SIZE) = (L + 1) % EVENT_LOG_SIZE := by
  simp only [next_index, EVENT_LOG_SIZE]
  split <;> omega

/-- The double wrap_sub of log_get_newest computes the ring slot of the
nth newest entry after L appends. -/
theorem wrap_sub_get_index (L n : Nat) (hL : 1 ≤ L) (hn : n ≤ L - 1)
    (hn32 : n < EVENT_LOG_SIZE) :
    wrap_sub (wrap_sub (L % EVENT_LOG_SIZE) 1) n = (L - 1 - n) % EVENT_LOG_SIZE := by
  simp only [wrap_sub, EVENT_LOG_SIZE] at hn32 ⊢
  split_ifs <;> omega

/-- Ring-buffer invariant after appending a whole list to a fresh log:
head is the append count reduced mod capacity, count saturates at
capacity, and for every i below the count the slot (L-1-i) mod capacity
holds the (i+1)th most recently appended entry. -/
theorem log_append_all_invariant (xs : List EventLogEntry) :
    (log_append_all xs).head = xs.length % EVENT_LOG_SIZE ∧
    (log_append_all xs).count = min xs.length EVENT_LOG_SIZE ∧
    ∀ i, i < min xs.length EVENT_LOG_SIZE →
      (log_append_all xs).entries ((xs.length - 1 - i) % EVENT_LOG_SIZE) =
        xs.reverse.getD i log_entry_zero := by
  induction xs using List.reverseRecOn with
  | nil => exact ⟨rfl, rfl, fun i hi => absurd hi (by simp)⟩
  | append_singleton xs e ih =>
      obtain ⟨ihh, ihc, ihe⟩ := ih
      have hfold : log_append_all (xs ++ [e]) =
          log_event (log_append_all xs) e.timestamp_ms e.code e.param1 e.param2 := by
        simp [log_append_all, List.foldl_append]
      have hlen : (xs ++ [e]).length = xs.length + 1 := by simp
      have hrev : (xs ++ [e]).reverse = e :: xs.reverse := by simp
      refine ⟨?_, ?_, ?_⟩
      · rw [hfold, hlen]
        show next_index (log_append_all xs).head = _
        rw [ihh]
        exact next_index_mod xs.length
      · rw [hfold, hlen]
        show (if (log_append_all xs).count < EVENT_LOG_SIZE then
            (log_append_all xs).count + 1 else (log_append_all xs).count) = _
        rw [ihc]
        simp only [EVENT_LOG_SIZE]
        split <;> omega
      · intro i hi
        rw [hlen] at hi
        rw [hfold, hlen, hrev]
        show (if ((xs.length + 1 - 1 - i) % EVENT_LOG_SIZE) = (log_append_all xs).head
            then (⟨e.timestamp_ms, e.code, e.param1, e.param2⟩ : EventLogEntry)
            else (log_append_all xs).entries ((xs.length + 1 - 1 - i) % EVENT_LOG_SIZE)) = _
        rw [ihh]
        simp only [EVENT_LOG_SIZE] at hi ⊢
        rcases Nat.eq_zero_or_pos i with hi0 | hipos
        · subst hi0
          rw [if_pos (by omega)]
          rfl
        · obtain ⟨j, rfl⟩ : ∃ j, i = j + 1 := ⟨i - 1, by omega⟩
          rw [if_neg (by omega)]
          have h1 : xs.length + 1 - 1 - (j + 1) = xs.length - 1 - j := by omega
          rw [h1, List.getD_cons_succ]
          have hj : j < min xs.length EVENT_LOG_SIZE := by
            simp only [EVENT_LOG_SIZE]
            omega
          have := ihe j hj
          simpa only [EVENT_LOG_SIZE] using this

/-- C8: the event log is a correct bounded ring buffer: after appending
any list of entries to a fresh log, the count is the number appended,
saturating at the capacity (and grows by exactly one per further append
up to saturation); log_get_newest n returns the (n+1)th most recently
appended entry for every n below the count, and a not-found indicator
for every n at or beyond the count — so after capacity+k appends exactly
capacity entries are retrievable, index 0 is the most recent, and the k
oldest entries are unrecoverable. -/
theorem event_log_ring_correct (xs : List EventLogEntry) :
    log_count (log_append_all xs) = min xs.length EVENT_LOG_SIZE ∧
    (∀ e, log_count (log_append_all (xs ++ [e])) =
      min (xs.length + 1) EVENT_LOG_SIZE) ∧
    (∀ n, n < min xs.length EVENT_LOG_SIZE →
      log_get_newest (log_append_all xs) n =
        some (xs.reverse.getD n log_entry_zero)) ∧
    (∀ n, min xs.length EVENT_LOG_SIZE ≤ n →
      log_get_newest (log_append_all xs) n = none) := by
  obtain ⟨hh, hc, he⟩ := log_append_all_invariant xs
  refine ⟨hc, ?_, ?_, ?_⟩
  · intro e
    have h2 := (log_append_all_invariant (xs ++ [e])).2.1
    simpa using h2
  · intro n hn
    have hcount : ¬ (n ≥ (log_append_all xs).count) := by
      rw [hc]
      omega
    simp only [log_get_newest, if_neg hcount]
    rw [hh, wrap_sub_get_index xs.length n ?_ ?_ ?_]
    · exact congrArg some (he n hn)
    · simp only [EVENT_LOG_SIZE] at hn
      omega
    · simp only [EVENT_LOG_SIZE] at hn
      omega
    · simp only [EVENT_LOG_SIZE] at hn ⊢
      omega
  · intro n hn
    simp only [log_get_newest]
    rw [if_pos]
    rw [hc]
    omega

/-- C8 witness: the two-entry scenario of the unit tests — after two
appends index 1 retrieves the first entry. -/
theorem event_log_ring_correct_witness :
    (1 < min ([⟨10, 1, 1, 2⟩, ⟨20, 2, 3, 4⟩] : List EventLogEntry).length EVENT_LOG_SIZE) ∧
    log_get_newest (log_append_all [⟨10, 1, 1, 2⟩, ⟨20, 2, 3, 4⟩]) 1 =
      some (([⟨10, 1, 1, 2⟩, ⟨20, 2, 3, 4⟩] : List EventLogEntry).reverse.getD 1
        log_entry_zero) :=
  ⟨by decide, (event_log_ring_correct [⟨10, 1, 1, 2⟩, ⟨20, 2, 3, 4⟩]).2.2.1 1 (by decide)⟩

end Triton
